import Mathlib

/-!
Verification of the retention decision engine of the deno_actions repository
(src/retention/retention.ts, src/retention/main.ts, src/retention/issues-api.ts).

Shallow embedding conventions:
* Timestamps are epoch milliseconds, modelled as `Int` (the source stores ISO
  strings and converts with `new Date(s).getTime()`; string parsing is a
  transport concern and is bypassed by carrying the millisecond value).
* `Number(x.toFixed(2))` is modelled as exact decimal rounding to two places
  with the JS tie rule (pick the larger candidate), on rationals.
* The GitHub snapshot of one run is a single list of issues with their
  comments attached; `getQAReadyInstances` and `getOpenIssuesWithComments`
  are the title filter and the identity on that snapshot, exactly as
  src/retention/issues-api.ts derives both listings from the same cached
  `api.issues()` response.
* Remote side effects (label removal, comment creation, close) are modelled
  as explicit call lists / oracle outcomes so that ordering and per-issue
  failure isolation can be stated.
-/

/-- JS `s.includes(pat)` on char lists: does `pat` occur at the head of `s`. -/
def charsLeadWith : List Char → List Char → Bool
  | _, [] => true
  | [], _ :: _ => false
  | c :: cs, p :: ps => (c == p) && charsLeadWith cs ps

/-- JS `s.includes(pat)` on char lists: does `pat` occur anywhere in `s`. -/
def charsContain : List Char → List Char → Bool
  | [], pat => pat.isEmpty
  | c :: cs, pat => charsLeadWith (c :: cs) pat || charsContain cs pat

/-- JS `String.prototype.includes`: substring containment. -/
def strIncludes (s pat : String) : Bool :=
  charsContain s.data pat.data

/-- Rounding to two decimal places as JS `Number(x.toFixed(2))`: the ECMA
spec picks the integer n minimizing |n / 100 - x|, and the larger n on ties,
which is `⌊100 x + 1 / 2⌋ / 100`. -/
def round2 (x : ℚ) : ℚ :=
  ((⌊x * 100 + 1 / 2⌋ : Int) : ℚ) / 100

/-- Hundredths of an hour between `now` and `date`:
`⌊(now - date) / 3600000 · 100 + 1 / 2⌋`, computed with integer floor
division (the divisor is positive, so `/` on `Int` is floor division). -/
def centiHoursSince (now date : Int) : Int :=
  (now - date + 18000) / 36000

/-- Embeds `hoursSince` (src/retention/retention.ts lines 10-11):
`Number(((Date.now() - new Date(date).getTime()) / 3600000).toFixed(2))`,
with the wall clock passed explicitly as `now`: the exact two-decimal value
of the hour difference, as the rational `centiHoursSince / 100`. The
theorem `hoursSince_eq_round2` below certifies that this agrees with
`round2` applied to the exact hour difference. -/
def hoursSince (now date : Int) : ℚ :=
  mkRat (centiHoursSince now date) 100

/-- Embeds `isAfter` (retention.ts line 40): `date1.getTime() > date2.getTime()`. -/
def isAfter (date1 date2 : Int) : Bool :=
  decide (date2 < date1)

/-- Configuration values consumed by the core (src/retention/config.ts);
transport-only fields (token, owner, repo, octokit options, DEBUG) are
omitted. Hour thresholds are rationals because the env parser accepts
fractional values (defaults 0.1 and 0.05). -/
structure AppConfig where
  RETENTION_HOURS : ℚ
  INACTIVITY_THRESHOLD_HOURS : ℚ
  WARNING_LABEL : String
  BOT_USERNAME : String
deriving DecidableEq, Repr

/-- A comment as fetched by issues-api.ts: creation time, author login,
optional body. -/
structure IssueComment where
  created_at : Int
  userLogin : String
  body : Option String
deriving DecidableEq, Repr

/-- An issue as fetched by issues-api.ts: `labels` keeps only the `name`
strings, `userLogin` is `user.login`, and `comments` is the optional list
attached by `getOpenIssuesWithComments`. -/
structure Issue where
  number : Nat
  title : String
  created_at : Int
  updated_at : Int
  userLogin : String
  labels : List String
  comments : Option (List IssueComment)
deriving DecidableEq, Repr

/-- Activity kinds from src/retention/retention.ts (`create` | `comment`). -/
inductive ActivityType where
  | create
  | comment
deriving DecidableEq, Repr

/-- A derived activity entry (retention.ts types): date, kind, actor-is-bot. -/
structure Activity where
  type : ActivityType
  date : Int
  isBot : Bool
deriving DecidableEq, Repr

/-- Stable insertion keeping ascending `date` order (an element is placed
after every earlier element whose date is ≤ its own). -/
def insertActivity (x : Activity) : List Activity → List Activity
  | [] => [x]
  | y :: ys => if y.date ≤ x.date then y :: insertActivity x ys else x :: y :: ys

/-- Stable ascending sort by date, modelling
`activities.sort((a, b) => a.date.getTime() - b.date.getTime())` (V8 sort
is stable). -/
def sortActivities (l : List Activity) : List Activity :=
  l.foldl (fun acc x => insertActivity x acc) []

/-- Embeds `getIssueActivity` (retention.ts lines 45-65): one creation
activity, one activity per comment, bot-tagged by login equality with the
configured bot identity, sorted ascending by date. -/
def getIssueActivity (cfg : AppConfig) (issue : Issue) : List Activity :=
  sortActivities
    ({ type := ActivityType.create, date := issue.created_at,
       isBot := issue.userLogin == cfg.BOT_USERNAME } ::
     (issue.comments.getD []).map (fun c =>
       { type := ActivityType.comment, date := c.created_at,
         isBot := c.userLogin == cfg.BOT_USERNAME }))

/-- The literal marker the classifier greps comment bodies for
(retention.ts line 79). -/
def warningMarker : String := "QA instance inactive for"

/-- Derived state of one issue (retention.ts types; IssueState). -/
structure IssueState where
  lastHumanActivity : Int
  warningDate : Option Int
  hasWarning : Bool
  hoursSinceActivity : ℚ
deriving DecidableEq, Repr

/-- Embeds `getIssueState` (retention.ts lines 70-109).
The warning comment search is `.filter(bot comment).find(matching marker
comment with equal timestamp)` over the ascending activity list, so it
yields the earliest bot comment whose timestamp carries a marker comment.
`warningDate` is its date; `lastHumanActivity` is the latest non-bot
activity, defaulting to the creation date; `hasWarning` is label presence. -/
def getIssueState (cfg : AppConfig) (now : Int) (issue : Issue) : IssueState :=
  let activities := getIssueActivity cfg issue
  let hasWarning := issue.labels.any (fun l => l == cfg.WARNING_LABEL)
  let warningComment :=
    (activities.filter (fun a => a.isBot && a.type == ActivityType.comment)).find?
      (fun a =>
        ((issue.comments.getD []).find? (fun c =>
          c.userLogin == cfg.BOT_USERNAME &&
          (match c.body with
           | some b => strIncludes b warningMarker
           | none => false) &&
          c.created_at == a.date)).isSome)
  let humanActivities := activities.filter (fun a => !a.isBot)
  let lastHumanActivity :=
    match humanActivities with
    | [] => issue.created_at
    | h :: t =>
      (t.foldl (fun latest current =>
        if latest.date < current.date then current else latest) h).date
  { lastHumanActivity := lastHumanActivity,
    warningDate := warningComment.map (fun a => a.date),
    hasWarning := hasWarning,
    hoursSinceActivity := hoursSince now lastHumanActivity }

/-- Title marker of QA instances (src/retention/issues-api.ts line 90). -/
def qaTitleMarker : String := "QA-Instance ready"

/-- Embeds `getQAReadyInstances` (issues-api.ts lines 88-91): the open
issues whose title contains the QA marker. -/
def getQAReadyInstances (issues : List Issue) : List Issue :=
  issues.filter (fun i => strIncludes i.title qaTitleMarker)

/-- First pass predicate of `getExpiredQAInstances` (retention.ts lines
132-142): `warningDate && lastHumanActivity > warningDate`. -/
def shouldRescind (cfg : AppConfig) (now : Int) (issue : Issue) : Bool :=
  let st := getIssueState cfg now issue
  match st.warningDate with
  | some w => decide (w < st.lastHumanActivity)
  | none => false

/-- The numbers collected into `removedWarningLabels` (retention.ts lines
128-143): label-bearing issues whose state satisfies `shouldRescind`; for
each, `removeWarningLabel` is invoked remotely. -/
def removedWarningNums (cfg : AppConfig) (now : Int) (issues : List Issue) : List Nat :=
  ((issues.filter (fun i => i.labels.any (fun l => l == cfg.WARNING_LABEL))).filter
    (shouldRescind cfg now)).map Issue.number

/-- Second pass body of `getExpiredQAInstances` (retention.ts lines
146-157): look the instance up in the full listing, skip it if its label
was just removed, otherwise include it iff expired and unlabelled. -/
def expiryDecision (cfg : AppConfig) (now : Int) (issues : List Issue)
    (removedNums : List Nat) (issue : Issue) : Option Issue :=
  match issues.find? (fun i => i.number == issue.number) with
  | none => none
  | some fullIssue =>
    if removedNums.contains issue.number then none
    else
      if decide ((getIssueState cfg now fullIssue).hoursSinceActivity >
           cfg.RETENTION_HOURS) && !(getIssueState cfg now fullIssue).hasWarning
      then some issue else none

/-- Result of one expiry selector pass: the issue numbers whose warning
label was removed (the `removedWarningLabels` set, i.e. the rescind side
effects), and the issues returned as needing a new warning. -/
structure ExpiryResult where
  removedWarningLabels : List Nat
  needsWarning : List Issue
deriving DecidableEq, Repr

/-- Embeds `getExpiredQAInstances` (retention.ts lines 114-166) over one
snapshot: `instances` is the QA title filter of the snapshot,
`instancesWithComments` is the snapshot itself. -/
def getExpiredQAInstances (cfg : AppConfig) (now : Int) (issues : List Issue) :
    ExpiryResult :=
  let removedNums := removedWarningNums cfg now issues
  { removedWarningLabels := removedNums,
    needsWarning :=
      (getQAReadyInstances issues).filterMap (expiryDecision cfg now issues removedNums) }

/-- Embeds `getInactiveWarnedIssues` (retention.ts lines 171-206): filter
the full open snapshot; require label and warning comment, no human
activity after the warning, and `hoursSinceWarning >= INACTIVITY_THRESHOLD_HOURS`. -/
def getInactiveWarnedIssues (cfg : AppConfig) (now : Int) (issues : List Issue) :
    List Issue :=
  issues.filter (fun issue =>
    let st := getIssueState cfg now issue
    match st.warningDate with
    | none => false
    | some w =>
      st.hasWarning &&
      !(isAfter st.lastHumanActivity w) &&
      decide (hoursSince now w ≥ cfg.INACTIVITY_THRESHOLD_HOURS))

/-- Embeds the closure-set computation of `main` (src/retention/main.ts
lines 106-112): the inactivity selection minus every issue whose number
appears in the needs-new-warning result of the same run; this list is what
is handed to `closeInactiveIssues`. -/
def mainTrulyInactive (cfg : AppConfig) (now : Int) (issues : List Issue) :
    List Issue :=
  let needWarning := (getExpiredQAInstances cfg now issues).needsWarning
  let inactiveIssues := getInactiveWarnedIssues cfg now issues
  inactiveIssues.filter (fun inactive =>
    !(needWarning.any (fun warning => warning.number == inactive.number)))

/-- Remote tracker calls issued by the transition executor, recorded as
data so call ordering can be stated. -/
inductive ApiCall where
  | createComment (issueNumber : Nat) (body : String)
  | addLabels (issueNumber : Nat) (labels : List String)
  | updateState (issueNumber : Nat) (state : String) (stateReason : String)
  | removeLabel (issueNumber : Nat) (name : String)
deriving DecidableEq, Repr

/-- Embeds `generateWarningMessage` (src/retention/main.ts lines 18-38).
The three interpolated fragments (`config.RETENTION_HOURS`,
`config.INACTIVITY_THRESHOLD_HOURS` rendered as numbers, and
`new Date().toISOString()`) are abstracted as string parameters. -/
def generateWarningMessage (retentionHours inactivityHours createdISO : String) : String :=
  "⚠️ **QA Instance Retention Warning**\n\nThis QA instance has exceeded the " ++
  retentionHours ++
  "h retention period.\nCreated: " ++ createdISO ++
  "\n\n**What does this mean?**\n- If there is no activity within " ++
  inactivityHours ++
  "h, this issue will be automatically closed\n- Any comment from a team member will reset the retention timer\n- The warning label will be removed after new activity\n\n**Actions needed:**\n1. If you still need this QA instance:\n   - Add a comment explaining why it\x27s still needed\n   - The retention timer will reset automatically\n2. If you no longer need this instance:\n   - You can close this issue now\n   - Or let it auto-close after " ++
  inactivityHours ++
  "h of inactivity\n\nFor questions about this process, please contact the infrastructure team."

/-- Embeds the `closeMessage` built inside `closeInactiveIssues`
(retention.ts lines 272-274); `toISOString()` of the last human activity
and the numeric threshold are abstracted to `toString` of the embedded
values. -/
def closeMessage (cfg : AppConfig) (now : Int) (issue : Issue) : String :=
  let st := getIssueState cfg now issue
  "🔒 Auto-closed: No activity since " ++ toString st.lastHumanActivity ++ "\n\n" ++
  "This QA instance exceeded the " ++ toString cfg.INACTIVITY_THRESHOLD_HOURS ++
  "h inactivity threshold after receiving a warning.\n" ++
  "If you need this instance again, please reopen the issue and add a comment explaining why."

/-- The tracker call sequence of one successful `closeIssue` inside
`closeInactiveIssues` (retention.ts lines 268-292): the source awaits
`octokit.rest.issues.update({ state: "closed", state_reason: "completed" })`
first (lines 276-282) and `createComment` second (lines 284-289). -/
def closeIssueCalls (cfg : AppConfig) (now : Int) (issue : Issue) : List ApiCall :=
  [ApiCall.updateState issue.number "closed" "completed",
   ApiCall.createComment issue.number (closeMessage cfg now issue)]

/-- The tracker call sequence of one successful `addWarning` inside
`addWarningToIssues` (retention.ts lines 219-247): `createComment` first
(lines 222-227), `addLabels` second (lines 229-234). -/
def addWarningCalls (cfg : AppConfig) (issue : Issue) (commentText : String) :
    List ApiCall :=
  [ApiCall.createComment issue.number commentText,
   ApiCall.addLabels issue.number [cfg.WARNING_LABEL]]

/-- Index of the first call satisfying a predicate. -/
def firstCallIdx (p : ApiCall → Bool) : List ApiCall → Option Nat
  | [] => none
  | c :: cs => if p c then some 0 else (firstCallIdx p cs).map (fun i => i + 1)

/-- Recognizes a comment-creation call. -/
def isCreateCommentCall : ApiCall → Bool
  | ApiCall.createComment _ _ => true
  | _ => false

/-- Recognizes a state-transition call. -/
def isUpdateStateCall : ApiCall → Bool
  | ApiCall.updateState _ _ _ => true
  | _ => false

/-- Holds when the first comment-creation call of a trace is issued before
the first state-transition call. -/
def commentIssuedBeforeClose (calls : List ApiCall) : Bool :=
  match firstCallIdx isCreateCommentCall calls, firstCallIdx isUpdateStateCall calls with
  | some i, some j => decide (i < j)
  | _, _ => false

/-- Outcome record of one warn or close action (types; OperationResult). -/
structure OperationResult where
  issueNumber : Nat
  success : Bool
  error : Option String
deriving DecidableEq, Repr

/-- Oracle for the fallible tracker calls of the transition executor: each
call either succeeds or fails with an error message, exactly the two
outcomes the per-issue try/catch distinguishes. -/
structure ApiBehavior where
  createComment : Nat → String → Except String Unit
  addLabels : Nat → List String → Except String Unit
  updateState : Nat → String → Except String Unit

/-- Embeds the per-issue `addWarning` of `addWarningToIssues` (retention.ts
lines 219-247): comment first, label second; the first failing call yields
a failure result carrying its message, otherwise success. -/
def addWarningToIssue (cfg : AppConfig) (api : ApiBehavior) (commentText : String)
    (issue : Issue) : OperationResult :=
  match api.createComment issue.number commentText with
  | Except.error e => { issueNumber := issue.number, success := false, error := some e }
  | Except.ok _ =>
    match api.addLabels issue.number [cfg.WARNING_LABEL] with
    | Except.error e => { issueNumber := issue.number, success := false, error := some e }
    | Except.ok _ => { issueNumber := issue.number, success := true, error := none }

/-- Embeds `addWarningToIssues` (retention.ts lines 211-256):
`Promise.all(issues.map(addWarning))`, one result per input issue. -/
def addWarningToIssues (cfg : AppConfig) (api : ApiBehavior) (issues : List Issue)
    (commentText : String) : List OperationResult :=
  issues.map (addWarningToIssue cfg api commentText)

/-- Embeds the per-issue `closeIssue` of `closeInactiveIssues` (retention.ts
lines 268-302): state update first, closing comment second; the first
failing call yields a failure result carrying its message. -/
def closeInactiveIssue (cfg : AppConfig) (now : Int) (api : ApiBehavior)
    (issue : Issue) : OperationResult :=
  match api.updateState issue.number "closed" with
  | Except.error e => { issueNumber := issue.number, success := false, error := some e }
  | Except.ok _ =>
    match api.createComment issue.number (closeMessage cfg now issue) with
    | Except.error e => { issueNumber := issue.number, success := false, error := some e }
    | Except.ok _ => { issueNumber := issue.number, success := true, error := none }

/-- Embeds `closeInactiveIssues` (retention.ts lines 261-311):
`Promise.all(issues.map(closeIssue))`, one result per input issue. -/
def closeInactiveIssues (cfg : AppConfig) (now : Int) (api : ApiBehavior)
    (issues : List Issue) : List OperationResult :=
  issues.map (closeInactiveIssue cfg now api)

/-! Concrete run data used by witnesses, counterexamples and evaluations of
the code at failing inputs. `cfgA` carries the production defaults
(README table and config.ts): 48h retention, 24h inactivity,
"retention-warning" label, bot identity "dolores-dei". -/

def hourMs : Int := 3600000

def cfgA : AppConfig :=
  { RETENTION_HOURS := 48, INACTIVITY_THRESHOLD_HOURS := 24,
    WARNING_LABEL := "retention-warning", BOT_USERNAME := "dolores-dei" }

def nowA : Int := 1767225600000

/-- A bot comment whose body contains the classifier marker. -/
def warnCommentAt (t : Int) : IssueComment :=
  { created_at := t, userLogin := "dolores-dei",
    body := some "QA instance inactive for 48h" }

/-- A QA issue created 50h ago with no comments and no label. -/
def issueC1 : Issue :=
  { number := 1, title := "QA-Instance ready [test-fresh]",
    created_at := nowA - 50 * hourMs, updated_at := nowA - 50 * hourMs,
    userLogin := "alice", labels := [], comments := some [] }

/-- A warned QA issue: label plus marker comment 25h ago, no activity since. -/
def issueC2w : Issue :=
  { number := 2, title := "QA-Instance ready [test-warned]",
    created_at := nowA - 50 * hourMs, updated_at := nowA - 25 * hourMs,
    userLogin := "alice", labels := ["retention-warning"],
    comments := some [warnCommentAt (nowA - 25 * hourMs)] }

/-- A warned QA issue with a later human comment (1h ago, after the 25h-old
warning). -/
def issueC3w : Issue :=
  { number := 3, title := "QA-Instance ready [test-active]",
    created_at := nowA - 50 * hourMs, updated_at := nowA - 1 * hourMs,
    userLogin := "alice", labels := ["retention-warning"],
    comments := some [warnCommentAt (nowA - 25 * hourMs),
      ({ created_at := nowA - 1 * hourMs,
         userLogin := "bob",
         body := some "still needed" } : IssueComment)] }

/-- A QA issue bearing the warning label but with no warning comment at all
(label-only leftover), created 100h ago. -/
def issueC8 : Issue :=
  { number := 8, title := "QA-Instance ready [test-label-only]",
    created_at := nowA - 100 * hourMs, updated_at := nowA - 100 * hourMs,
    userLogin := "alice", labels := ["retention-warning"], comments := some [] }

/-- A non-QA issue with label and marker comment only 1h old. -/
def issueC10cx : Issue :=
  { number := 10, title := "Deploy pipeline broken",
    created_at := nowA - 50 * hourMs, updated_at := nowA - 1 * hourMs,
    userLogin := "alice", labels := ["retention-warning"],
    comments := some [warnCommentAt (nowA - 1 * hourMs)] }

/-- A non-QA issue with label and marker comment 25h old, no activity since. -/
def issueC10w : Issue :=
  { number := 11, title := "Nightly deploy job failing",
    created_at := nowA - 50 * hourMs, updated_at := nowA - 25 * hourMs,
    userLogin := "alice", labels := ["retention-warning"],
    comments := some [warnCommentAt (nowA - 25 * hourMs)] }

/-- A QA issue whose only bot comment body is exactly the warn-path template
output (main.ts generateWarningMessage with the production 48/24 config),
with the warning label present. -/
def issueC6 : Issue :=
  { number := 6, title := "QA-Instance ready [test-roundtrip]",
    created_at := nowA - 50 * hourMs, updated_at := nowA - 25 * hourMs,
    userLogin := "alice", labels := ["retention-warning"],
    comments := some [({ created_at := nowA - 25 * hourMs,
                         userLogin := "dolores-dei",
                         body := some (generateWarningMessage "48" "24"
                           "2025-12-30T00:00:00.000Z") } : IssueComment)] }

def tC7a : Int := nowA - 50 * hourMs

def tC7b : Int := nowA - 10 * hourMs

/-- An issue carrying two bot marker comments, 50h and 10h old. -/
def issueC7 : Issue :=
  { number := 7, title := "QA-Instance ready [test-two-warnings]",
    created_at := nowA - 100 * hourMs, updated_at := nowA - 10 * hourMs,
    userLogin := "alice", labels := ["retention-warning"],
    comments := some [warnCommentAt tC7a, warnCommentAt tC7b] }

/-- An oracle whose createComment call fails for issue number 2 and whose
other calls succeed. -/
def api9 : ApiBehavior :=
  { createComment := fun n _ => if n == 2 then Except.error "boom" else Except.ok (),
    addLabels := fun _ _ => Except.ok (),
    updateState := fun _ _ => Except.ok () }

/-! Helper lemmas shared by the claim theorems. -/

theorem hoursSince_eq_round2 (now date : Int) :
    hoursSince now date = round2 (((now - date : Int) : ℚ) / 3600000) := by
  unfold hoursSince round2 centiHoursSince
  have harg : ((now - date : Int) : ℚ) / 3600000 * 100 + 1 / 2
      = ((now - date + 18000 : Int) : ℚ) / ((36000 : ℕ) : ℚ) := by
    push_cast
    ring
  rw [harg, Rat.floor_intCast_div_natCast, Rat.mkRat_eq_divInt, Rat.divInt_eq_div]
  norm_num

theorem list_contains_iff_mem (l : List Nat) (n : Nat) :
    l.contains n = true ↔ n ∈ l := by
  induction l with
  | nil => simp [List.contains]
  | cons h t ih => simp [List.contains] at ih ⊢

theorem eq_of_mem_of_map_nodup {α β : Type} (f : α → β) {l : List α}
    (hnd : (l.map f).Nodup) {a b : α} (ha : a ∈ l) (hb : b ∈ l)
    (hfe : f a = f b) : a = b := by
  induction l with
  | nil => cases ha
  | cons h t ih =>
    rw [List.map_cons, List.nodup_cons] at hnd
    rcases List.mem_cons.mp ha with rfl | ha'
    · rcases List.mem_cons.mp hb with rfl | hb'
      · rfl
      · exact absurd (hfe ▸ List.mem_map_of_mem f hb') hnd.1
    · rcases List.mem_cons.mp hb with rfl | hb'
      · exact absurd (hfe ▸ List.mem_map_of_mem f ha') hnd.1
      · exact ih hnd.2 ha' hb'

theorem find?_number_of_nodup {issues : List Issue} {issue : Issue}
    (hmem : issue ∈ issues) (hnd : (issues.map Issue.number).Nodup) :
    issues.find? (fun i => i.number == issue.number) = some issue := by
  induction issues with
  | nil => cases hmem
  | cons h t ih =>
    rw [List.map_cons, List.nodup_cons] at hnd
    rcases List.mem_cons.mp hmem with rfl | hmem'
    · exact List.find?_cons_of_pos _ (by simp)
    · have hne : h.number ≠ issue.number := fun he =>
        hnd.1 (he ▸ List.mem_map_of_mem Issue.number hmem')
      rw [List.find?_cons_of_neg _ (by simp [hne])]
      exact ih hmem' hnd.2

theorem getIssueState_hasWarning (cfg : AppConfig) (now : Int) (issue : Issue) :
    (getIssueState cfg now issue).hasWarning =
      issue.labels.any (fun l => l == cfg.WARNING_LABEL) := rfl

theorem getIssueState_noComments (cfg : AppConfig) (now : Int) (issue : Issue)
    (hc : issue.comments.getD [] = []) :
    getIssueState cfg now issue =
      { lastHumanActivity := issue.created_at,
        warningDate := none,
        hasWarning := issue.labels.any (fun l => l == cfg.WARNING_LABEL),
        hoursSinceActivity := hoursSince now issue.created_at } := by
  unfold getIssueState getIssueActivity
  rw [hc]
  simp only [List.map_nil, sortActivities, List.foldl_cons, List.foldl_nil, insertActivity]
  cases hbot : issue.userLogin == cfg.BOT_USERNAME <;>
    simp [List.filter, List.find?, hbot]

theorem warningDate_spec {cfg : AppConfig} {now : Int} {issue : Issue} {w : Int}
    (hw : (getIssueState cfg now issue).warningDate = some w) :
    ∃ c ∈ issue.comments.getD [], c.userLogin = cfg.BOT_USERNAME ∧
      (∃ b, c.body = some b ∧ strIncludes b warningMarker = true) ∧
      c.created_at = w := by
  unfold getIssueState at hw
  simp only [Option.map_eq_some'] at hw
  obtain ⟨a, hfind, hdate⟩ := hw
  have hpred := List.find?_some hfind
  simp only [Option.isSome_iff_exists] at hpred
  obtain ⟨c, hc⟩ := hpred
  have hcmem := List.mem_of_find?_eq_some hc
  have hcp := List.find?_some hc
  simp only [Bool.and_eq_true, beq_iff_eq] at hcp
  obtain ⟨⟨hlogin, hbody⟩, hcreated⟩ := hcp
  refine ⟨c, hcmem, hlogin, ?_, hdate ▸ hcreated⟩
  cases hb : c.body with
  | none => rw [hb] at hbody; simp at hbody
  | some b => rw [hb] at hbody; exact ⟨b, rfl, hbody⟩

theorem expiryDecision_eq_some {cfg : AppConfig} {now : Int} {issues : List Issue}
    {removedNums : List Nat} {issue x : Issue}
    (h : expiryDecision cfg now issues removedNums issue = some x) :
    x = issue ∧ removedNums.contains issue.number = false ∧
    ∃ fullIssue, issues.find? (fun i => i.number == issue.number) = some fullIssue ∧
      (getIssueState cfg now fullIssue).hoursSinceActivity > cfg.RETENTION_HOURS ∧
      (getIssueState cfg now fullIssue).hasWarning = false := by
  unfold expiryDecision at h
  split at h
  · cases h
  · rename_i fullIssue hfind
    split at h
    · cases h
    · rename_i hrem
      split at h
      · rename_i hcond
        simp only [Bool.and_eq_true, decide_eq_true_eq, Bool.not_eq_true'] at hcond
        cases h
        exact ⟨rfl, Bool.not_eq_true _ ▸ hrem, fullIssue, hfind, hcond.1, hcond.2⟩
      · cases h

theorem expiryDecision_of_conditions {cfg : AppConfig} {now : Int}
    {issues : List Issue} {removedNums : List Nat} {issue fullIssue : Issue}
    (hfind : issues.find? (fun i => i.number == issue.number) = some fullIssue)
    (hrem : removedNums.contains issue.number = false)
    (hhrs : (getIssueState cfg now fullIssue).hoursSinceActivity > cfg.RETENTION_HOURS)
    (hwarn : (getIssueState cfg now fullIssue).hasWarning = false) :
    expiryDecision cfg now issues removedNums issue = some issue := by
  have hnm : issue.number ∉ removedNums := fun hm => by
    rw [(list_contains_iff_mem _ _).mpr hm] at hrem; cases hrem
  unfold expiryDecision
  rw [hfind]
  simp [hrem, hhrs, hwarn, hnm]

theorem mem_needsWarning_iff (cfg : AppConfig) (now : Int) (issues : List Issue)
    (issue : Issue) :
    issue ∈ (getExpiredQAInstances cfg now issues).needsWarning ↔
      issue ∈ issues ∧ strIncludes issue.title qaTitleMarker = true ∧
      expiryDecision cfg now issues (removedWarningNums cfg now issues) issue =
        some issue := by
  unfold getExpiredQAInstances
  simp only [List.mem_filterMap]
  constructor
  · rintro ⟨b, hb, hdec⟩
    obtain ⟨rfl, -, -⟩ := expiryDecision_eq_some hdec
    rcases List.mem_filter.mp hb with ⟨hmem, htitle⟩
    exact ⟨hmem, htitle, hdec⟩
  · rintro ⟨hmem, htitle, hdec⟩
    exact ⟨issue, List.mem_filter.mpr ⟨hmem, htitle⟩, hdec⟩

theorem mem_removedWarningNums {cfg : AppConfig} {now : Int} {issues : List Issue}
    {n : Nat} :
    n ∈ removedWarningNums cfg now issues ↔
      ∃ issue ∈ issues, issue.number = n ∧
        issue.labels.any (fun l => l == cfg.WARNING_LABEL) = true ∧
        shouldRescind cfg now issue = true := by
  unfold removedWarningNums
  simp only [List.mem_map, List.mem_filter]
  constructor
  · rintro ⟨i, ⟨⟨hmem, hlab⟩, hres⟩, rfl⟩
    exact ⟨i, hmem, rfl, hlab, hres⟩
  · rintro ⟨i, hmem, rfl, hlab, hres⟩
    exact ⟨i, ⟨⟨hmem, hlab⟩, hres⟩, rfl⟩

theorem mem_getInactiveWarnedIssues_iff (cfg : AppConfig) (now : Int)
    (issues : List Issue) (issue : Issue) :
    issue ∈ getInactiveWarnedIssues cfg now issues ↔
      issue ∈ issues ∧ (getIssueState cfg now issue).hasWarning = true ∧
      ∃ w, (getIssueState cfg now issue).warningDate = some w ∧
        (getIssueState cfg now issue).lastHumanActivity ≤ w ∧
        cfg.INACTIVITY_THRESHOLD_HOURS ≤ hoursSince now w := by
  simp only [getInactiveWarnedIssues, List.mem_filter]
  constructor
  · rintro ⟨hmem, hpred⟩
    refine ⟨hmem, ?_⟩
    split at hpred
    · cases hpred
    · rename_i w hw
      simp only [isAfter, Bool.and_eq_true, Bool.not_eq_true', decide_eq_true_eq,
        decide_eq_false_iff_not, not_lt, ge_iff_le] at hpred
      exact ⟨hpred.1.1, w, hw, hpred.1.2, hpred.2⟩
  · rintro ⟨hmem, hwarn, w, hw, hle, hthr⟩
    refine ⟨hmem, ?_⟩
    rw [hw]
    simp only [isAfter, Bool.and_eq_true, Bool.not_eq_true', decide_eq_true_eq,
      decide_eq_false_iff_not, not_lt, ge_iff_le]
    exact ⟨⟨hwarn, hle⟩, hthr⟩

/-! Claim theorems. -/

/-- C1: for an open issue present in the QA-titled snapshot (issue numbers
distinct, as fetched from one tracker), created H hours ago by a non-bot
author, with no comments and without the warning label, the expiry selector
includes it in the needs-new-warning set iff H > RETENTION_HOURS, where H
is the two-decimal hours-since-activity value of the creation date. -/
theorem claim_C1_fresh_expiry_threshold (cfg : AppConfig) (now : Int)
    (issues : List Issue) (issue : Issue)
    (hmem : issue ∈ issues)
    (hnd : (issues.map Issue.number).Nodup)
    (hqa : strIncludes issue.title qaTitleMarker = true)
    (_hauthor : issue.userLogin ≠ cfg.BOT_USERNAME)
    (hnc : issue.comments.getD [] = [])
    (hnl : cfg.WARNING_LABEL ∉ issue.labels) :
    issue ∈ (getExpiredQAInstances cfg now issues).needsWarning ↔
      hoursSince now issue.created_at > cfg.RETENTION_HOURS := by
  have hst := getIssueState_noComments cfg now issue hnc
  have hhw : issue.labels.any (fun l => l == cfg.WARNING_LABEL) = false := by
    rw [← Bool.not_eq_true, List.any_eq_true]
    rintro ⟨l, hl, hlw⟩
    exact hnl ((beq_iff_eq.mp hlw) ▸ hl)
  have hfind := find?_number_of_nodup hmem hnd
  have hremf : (removedWarningNums cfg now issues).contains issue.number = false := by
    rw [← Bool.not_eq_true]
    intro hc
    obtain ⟨r, hrmem, hrn, hrlab, -⟩ :=
      mem_removedWarningNums.mp ((list_contains_iff_mem _ _).mp hc)
    have hre : r = issue := eq_of_mem_of_map_nodup Issue.number hnd hrmem hmem hrn
    rw [hre, hhw] at hrlab
    cases hrlab
  rw [mem_needsWarning_iff]
  constructor
  · rintro ⟨-, -, hdec⟩
    obtain ⟨-, -, fullIssue, hfind2, hhrs, -⟩ := expiryDecision_eq_some hdec
    rw [hfind] at hfind2
    injection hfind2 with hfe
    rw [← hfe, hst] at hhrs
    exact hhrs
  · intro hH
    refine ⟨hmem, hqa, expiryDecision_of_conditions hfind hremf ?_ ?_⟩
    · rw [hst]; exact hH
    · rw [hst]; exact hhw

/-- C1 witness: the concrete 50h-old QA issue under the 48h production
configuration instantiates the theorem; its hypotheses all evaluate. -/
theorem claim_C1_witness :
    issueC1 ∈ (getExpiredQAInstances cfgA nowA [issueC1]).needsWarning ↔
      hoursSince nowA issueC1.created_at > cfgA.RETENTION_HOURS :=
  claim_C1_fresh_expiry_threshold cfgA nowA [issueC1] issueC1 (by decide) (by decide)
    (by decide) (by decide) (by decide) (by decide)

/-- C2: the inactivity selector includes an open issue iff the classifier
reports the warning label present, a warning comment found (warning date W
defined), last human activity not after W, and at least
INACTIVITY_THRESHOLD_HOURS elapsed since W; moreover the label flag is
exactly tracker-label presence and a defined warning date always comes from
a bot-authored marker comment at that very time, so label-only or
comment-only issues are never included. -/
theorem claim_C2_closure_selection (cfg : AppConfig) (now : Int)
    (issues : List Issue) (issue : Issue) :
    (issue ∈ getInactiveWarnedIssues cfg now issues ↔
      issue ∈ issues ∧
      (getIssueState cfg now issue).hasWarning = true ∧
      ∃ w, (getIssueState cfg now issue).warningDate = some w ∧
        (getIssueState cfg now issue).lastHumanActivity ≤ w ∧
        cfg.INACTIVITY_THRESHOLD_HOURS ≤ hoursSince now w) ∧
    ((getIssueState cfg now issue).hasWarning =
      issue.labels.any (fun l => l == cfg.WARNING_LABEL)) ∧
    (∀ w, (getIssueState cfg now issue).warningDate = some w →
      ∃ c ∈ issue.comments.getD [], c.userLogin = cfg.BOT_USERNAME ∧
        (∃ b, c.body = some b ∧ strIncludes b warningMarker = true) ∧
        c.created_at = w) :=
  ⟨mem_getInactiveWarnedIssues_iff cfg now issues issue,
   getIssueState_hasWarning cfg now issue,
   fun _ hw => warningDate_spec hw⟩

/-- C2 witness: the warned issue with a 25h-old marker comment and no later
activity is selected under the 24h threshold. -/
theorem claim_C2_witness :
    issueC2w ∈ getInactiveWarnedIssues cfgA nowA [issueC2w] :=
  ((claim_C2_closure_selection cfgA nowA [issueC2w] issueC2w).1).mpr
    ⟨by decide, by decide, nowA - 25 * hourMs, by decide, by decide, by decide⟩

/-- C3: an issue with an active warning (label plus warning date W) whose
last human activity is strictly after W has its number put into the
removed-warning-labels set of the expiry pass (the rescind side effect) and
is excluded from the needs-new-warning result of that same pass. -/
theorem claim_C3_rescind_excludes (cfg : AppConfig) (now : Int)
    (issues : List Issue) (issue : Issue)
    (hmem : issue ∈ issues)
    (hlabel : issue.labels.any (fun l => l == cfg.WARNING_LABEL) = true)
    (w : Int)
    (hw : (getIssueState cfg now issue).warningDate = some w)
    (hact : w < (getIssueState cfg now issue).lastHumanActivity) :
    issue.number ∈ (getExpiredQAInstances cfg now issues).removedWarningLabels ∧
    issue ∉ (getExpiredQAInstances cfg now issues).needsWarning := by
  have hres : shouldRescind cfg now issue = true := by
    simp only [shouldRescind]
    rw [hw]
    exact decide_eq_true hact
  have hremmem : issue.number ∈ removedWarningNums cfg now issues :=
    mem_removedWarningNums.mpr ⟨issue, hmem, rfl, hlabel, hres⟩
  refine ⟨hremmem, ?_⟩
  intro hmemNW
  obtain ⟨-, -, hdec⟩ := (mem_needsWarning_iff cfg now issues issue).mp hmemNW
  obtain ⟨-, hcontf, -⟩ := expiryDecision_eq_some hdec
  rw [(list_contains_iff_mem _ _).mpr hremmem] at hcontf
  cases hcontf

/-- C3 witness: the warned issue with a human comment 1h ago (after its
25h-old warning) is rescinded and not re-warned in the same pass. -/
theorem claim_C3_witness :
    issueC3w.number ∈ (getExpiredQAInstances cfgA nowA [issueC3w]).removedWarningLabels ∧
    issueC3w ∉ (getExpiredQAInstances cfgA nowA [issueC3w]).needsWarning :=
  claim_C3_rescind_excludes cfgA nowA [issueC3w] issueC3w (by decide) (by decide)
    (nowA - 25 * hourMs) (by decide) (by decide)

/-- C4: the set handed to the close executor is exactly the inactivity
selection minus every issue whose number appears in the needs-new-warning
result; in particular an issue in both naive computations is never closed
in that pass. -/
theorem claim_C4_closure_subtracts_warned (cfg : AppConfig) (now : Int)
    (issues : List Issue) (issue : Issue) :
    (issue ∈ mainTrulyInactive cfg now issues ↔
      issue ∈ getInactiveWarnedIssues cfg now issues ∧
      ∀ w ∈ (getExpiredQAInstances cfg now issues).needsWarning,
        w.number ≠ issue.number) ∧
    (issue ∈ (getExpiredQAInstances cfg now issues).needsWarning →
      issue ∉ mainTrulyInactive cfg now issues) := by
  have hiff : issue ∈ mainTrulyInactive cfg now issues ↔
      issue ∈ getInactiveWarnedIssues cfg now issues ∧
      ∀ w ∈ (getExpiredQAInstances cfg now issues).needsWarning,
        w.number ≠ issue.number := by
    simp only [mainTrulyInactive, List.mem_filter, Bool.not_eq_true',
      List.any_eq_false, beq_iff_eq, ne_eq]
  refine ⟨hiff, ?_⟩
  intro hNW hmem2
  exact (hiff.mp hmem2).2 issue hNW rfl

/-- C4 witness: the warned-inactive issue is handed to the close executor
when nothing needs a warning. -/
theorem claim_C4_witness :
    issueC2w ∈ mainTrulyInactive cfgA nowA [issueC2w] :=
  ((claim_C4_closure_subtracts_warned cfgA nowA [issueC2w] issueC2w).1).mpr
    ⟨by decide, by decide⟩

/-- C5 counterexample: on a concrete warned-inactive issue, the close
action trace puts the state transition at index 0 and the closing comment
at index 1, so the comment call is NOT issued before the close call. -/
theorem claim_C5_counterexample :
    commentIssuedBeforeClose (closeIssueCalls cfgA nowA issueC2w) = false ∧
    firstCallIdx isUpdateStateCall (closeIssueCalls cfgA nowA issueC2w) = some 0 ∧
    firstCallIdx isCreateCommentCall (closeIssueCalls cfgA nowA issueC2w) = some 1 :=
  ⟨rfl, rfl, rfl⟩

/-- C5 amended: for every issue processed by the close action, the call
transitioning the issue to the closed state is issued first and the call
posting the closing comment second (retention.ts lines 276-289), so an
observer may see the issue closed before the bot comment exists. -/
theorem claim_C5_close_then_comment (cfg : AppConfig) (now : Int) (issue : Issue) :
    closeIssueCalls cfg now issue =
      [ApiCall.updateState issue.number "closed" "completed",
       ApiCall.createComment issue.number (closeMessage cfg now issue)] ∧
    firstCallIdx isUpdateStateCall (closeIssueCalls cfg now issue) = some 0 ∧
    firstCallIdx isCreateCommentCall (closeIssueCalls cfg now issue) = some 1 ∧
    commentIssuedBeforeClose (closeIssueCalls cfg now issue) = false :=
  ⟨rfl, rfl, rfl, rfl⟩

set_option maxRecDepth 80000 in
/-- C6: evaluating the classifier on an issue bearing the warning label
whose only bot comment body is exactly the warn-path template output
(generateWarningMessage with the production 48h/24h values): the template
does not contain the classifier marker, so the classifier finds NO warning
comment (warningDate none) although the label is present — the marker does
not round-trip, contradicting the claim. -/
theorem claim_C6_marker_mismatch_eval :
    strIncludes (generateWarningMessage "48" "24" "2025-12-30T00:00:00.000Z")
      warningMarker = false ∧
    issueC6.labels.any (fun l => l == cfgA.WARNING_LABEL) = true ∧
    (getIssueState cfgA nowA issueC6).hasWarning = true ∧
    (getIssueState cfgA nowA issueC6).warningDate = none := by
  decide

/-- C7: evaluating the classifier on an issue with two bot marker comments
(50h and 10h old): the reported warning date is the creation time of the
EARLIEST marker comment, not the most recent one, contradicting the claim
(and the source comment, retention.ts line 74, which says "last"). -/
theorem claim_C7_earliest_marker_eval :
    (getIssueState cfgA nowA issueC7).warningDate = some tC7a ∧
    (getIssueState cfgA nowA issueC7).warningDate ≠ some tC7b ∧
    tC7a < tC7b := by
  decide

/-- C8 counterexample: a QA issue with the warning label, no comments at
all (hence no bot warning comment, warningDate none) and 100h since
creation (beyond the 48h retention window) is NOT included in the
needs-new-warning set, refuting the claim that such a label-only leftover
is re-warned. -/
theorem claim_C8_counterexample :
    strIncludes issueC8.title qaTitleMarker = true ∧
    issueC8.labels.any (fun l => l == cfgA.WARNING_LABEL) = true ∧
    (getIssueState cfgA nowA issueC8).warningDate = none ∧
    hoursSince nowA issueC8.created_at > cfgA.RETENTION_HOURS ∧
    issueC8 ∉ (getExpiredQAInstances cfgA nowA [issueC8]).needsWarning := by
  decide

/-- C8 amended: a label-only leftover (warning label present, no bot marker
comment so warningDate is none) is treated as unwarned by the closure
selector — it is never closed — but the expiry selector keys on the label
alone, so the issue is also NOT included in the needs-new-warning set: it
is silently skipped, not re-warned. -/
theorem claim_C8_label_only_leftover (cfg : AppConfig) (now : Int)
    (issues : List Issue) (issue : Issue)
    (hfind : issues.find? (fun i => i.number == issue.number) = some issue)
    (hlabel : issue.labels.any (fun l => l == cfg.WARNING_LABEL) = true)
    (hwd : (getIssueState cfg now issue).warningDate = none) :
    issue ∉ (getExpiredQAInstances cfg now issues).needsWarning ∧
    issue ∉ getInactiveWarnedIssues cfg now issues := by
  constructor
  · intro hmemNW
    obtain ⟨-, -, hdec⟩ := (mem_needsWarning_iff cfg now issues issue).mp hmemNW
    obtain ⟨-, -, fullIssue, hfind2, -, hhwf⟩ := expiryDecision_eq_some hdec
    rw [hfind] at hfind2
    injection hfind2 with hfe
    rw [← hfe, getIssueState_hasWarning, hlabel] at hhwf
    cases hhwf
  · intro hmemCl
    obtain ⟨-, -, w, hw, -, -⟩ :=
      (mem_getInactiveWarnedIssues_iff cfg now issues issue).mp hmemCl
    rw [hwd] at hw
    cases hw

/-- C8 witness: the concrete label-only leftover is neither re-warned nor
closed. -/
theorem claim_C8_witness :
    issueC8 ∉ (getExpiredQAInstances cfgA nowA [issueC8]).needsWarning ∧
    issueC8 ∉ getInactiveWarnedIssues cfgA nowA [issueC8] :=
  claim_C8_label_only_leftover cfgA nowA [issueC8] issueC8 (by decide) (by decide)
    (by decide)

/-- C9: both batch executors are total (the embedding returns a full result
list, never an exception), return exactly one OperationResult per input
issue in order; a failing tracker call makes that issue a failure result
carrying the error message, and each result depends only on the oracle
responses for its own issue, so one issue failing leaves every other result
unchanged. -/
theorem claim_C9_batch_isolation (cfg : AppConfig) (now : Int) (api : ApiBehavior)
    (commentText : String) (issues : List Issue) :
    (addWarningToIssues cfg api issues commentText).length = issues.length ∧
    (closeInactiveIssues cfg now api issues).length = issues.length ∧
    (∀ i : Nat, (addWarningToIssues cfg api issues commentText)[i]? =
      (issues[i]?).map (addWarningToIssue cfg api commentText)) ∧
    (∀ i : Nat, (closeInactiveIssues cfg now api issues)[i]? =
      (issues[i]?).map (closeInactiveIssue cfg now api)) ∧
    (∀ issue : Issue, ∀ e : String,
      api.createComment issue.number commentText = Except.error e →
      addWarningToIssue cfg api commentText issue =
        { issueNumber := issue.number, success := false, error := some e }) ∧
    (∀ issue : Issue, ∀ e : String,
      api.updateState issue.number "closed" = Except.error e →
      closeInactiveIssue cfg now api issue =
        { issueNumber := issue.number, success := false, error := some e }) ∧
    (∀ api2 : ApiBehavior, ∀ issue : Issue,
      api.createComment issue.number commentText =
        api2.createComment issue.number commentText →
      api.addLabels issue.number [cfg.WARNING_LABEL] =
        api2.addLabels issue.number [cfg.WARNING_LABEL] →
      addWarningToIssue cfg api commentText issue =
        addWarningToIssue cfg api2 commentText issue) ∧
    (∀ api2 : ApiBehavior, ∀ issue : Issue,
      api.updateState issue.number "closed" = api2.updateState issue.number "closed" →
      api.createComment issue.number (closeMessage cfg now issue) =
        api2.createComment issue.number (closeMessage cfg now issue) →
      closeInactiveIssue cfg now api issue = closeInactiveIssue cfg now api2 issue) := by
  refine ⟨List.length_map _ _, List.length_map _ _, ?_, ?_, ?_, ?_, ?_, ?_⟩
  · intro i
    simp [addWarningToIssues]
  · intro i
    simp [closeInactiveIssues]
  · intro issue e he
    simp [addWarningToIssue, he]
  · intro issue e he
    simp [closeInactiveIssue, he]
  · intro api2 issue h1 h2
    simp only [addWarningToIssue, h1, h2]
  · intro api2 issue h1 h2
    simp only [closeInactiveIssue, h1, h2]

/-- C9 witness: with an oracle failing createComment for issue number 2,
the batch still yields one result per issue and reports that failure with
its message. -/
theorem claim_C9_witness :
    (addWarningToIssues cfgA api9 [issueC1, issueC2w] "warn").length = 2 ∧
    addWarningToIssue cfgA api9 "warn" issueC2w =
      { issueNumber := 2, success := false, error := some "boom" } :=
  ⟨(claim_C9_batch_isolation cfgA nowA api9 "warn" [issueC1, issueC2w]).1,
   (claim_C9_batch_isolation cfgA nowA api9 "warn" [issueC1, issueC2w]).2.2.2.2.1
     issueC2w "boom" rfl⟩

/-- C10 counterexample: a non-QA open issue carrying the warning label and
a matching bot marker comment with no subsequent activity is NOT selected
for closure when the warning is only 1h old (below the 24h threshold),
refuting the claim as stated (it omits the elapsed-time condition). -/
theorem claim_C10_counterexample :
    strIncludes issueC10cx.title qaTitleMarker = false ∧
    issueC10cx.labels.any (fun l => l == cfgA.WARNING_LABEL) = true ∧
    (getIssueState cfgA nowA issueC10cx).warningDate = some (nowA - 1 * hourMs) ∧
    (getIssueState cfgA nowA issueC10cx).lastHumanActivity ≤ nowA - 1 * hourMs ∧
    issueC10cx ∉ getInactiveWarnedIssues cfgA nowA [issueC10cx] := by
  decide

/-- C10 amended: the two selectors range over different populations — every
member of the needs-new-warning result has the QA marker in its title,
while the closure selector applies no title condition: any open issue of
the snapshot (QA-titled or not) with the warning flag, a warning date W,
no later human activity and at least INACTIVITY_THRESHOLD_HOURS elapsed
since W is selected for closure. -/
theorem claim_C10_selector_populations (cfg : AppConfig) (now : Int)
    (issues : List Issue) (issue : Issue) :
    (issue ∈ (getExpiredQAInstances cfg now issues).needsWarning →
      strIncludes issue.title qaTitleMarker = true) ∧
    (issue ∈ issues →
      (getIssueState cfg now issue).hasWarning = true →
      ∀ w, (getIssueState cfg now issue).warningDate = some w →
        (getIssueState cfg now issue).lastHumanActivity ≤ w →
        cfg.INACTIVITY_THRESHOLD_HOURS ≤ hoursSince now w →
        issue ∈ getInactiveWarnedIssues cfg now issues) := by
  constructor
  · intro hmemNW
    exact ((mem_needsWarning_iff cfg now issues issue).mp hmemNW).2.1
  · intro hmem hwarn w hw hle hthr
    exact (mem_getInactiveWarnedIssues_iff cfg now issues issue).mpr
      ⟨hmem, hwarn, w, hw, hle, hthr⟩

/-- C10 witness: a concrete non-QA issue with a 25h-old warning and no
later activity is selected for closure. -/
theorem claim_C10_witness :
    issueC10w ∈ getInactiveWarnedIssues cfgA nowA [issueC10w] :=
  (claim_C10_selector_populations cfgA nowA [issueC10w] issueC10w).2 (by decide)
    (by decide) (nowA - 25 * hourMs) (by decide) (by decide) (by decide)
